import Mathlib

/-!
Verification development for the `searchconsole` SEO-audit script
(`src/app.py`). The script is a linear pipeline: authenticate to the
Google Search Console API, fetch three reports (index coverage, Core Web
Vitals via search analytics, mobile usability), send each report to an
LLM for analysis, generate an executive summary, and optionally export a
PDF. All external calls (Google API, OpenAI, the system date) are
modelled as oracles supplied through an environment record; the repo's
own logic is embedded as pure Lean functions over those oracles.
-/

set_option maxHeartbeats 1000000

namespace SearchConsole

/-- JSON-like values: the payloads returned by the external APIs and
stored in Python dictionaries by the script. -/
inductive Json where
  | null
  | str (s : String)
  | num (n : Int)
  | arr (items : List Json)
  | obj (fields : List (String × Json))

/-- A Python dictionary with string keys and JSON-ish values, as used for
the `results` mapping entries (`{"raw": ..., "ai_solution": ...}`). -/
abbrev PyDict := List (String × Json)

mutual

/-- Model of Python `str()` on these values (the script interpolates raw
payloads into f-strings and into `Paragraph(str(...))`). -/
def pyStr : Json → String
  | .null => "None"
  | .str s => "\x27" ++ s ++ "\x27"
  | .num n => toString n
  | .arr items => "[" ++ pyStrArr items ++ "]"
  | .obj fields => "\x7b" ++ pyStrObj fields ++ "\x7d"

def pyStrArr : List Json → String
  | [] => ""
  | [x] => pyStr x
  | x :: xs => pyStr x ++ ", " ++ pyStrArr xs

def pyStrObj : List (String × Json) → String
  | [] => ""
  | [(k, v)] => "\x27" ++ k ++ "\x27: " ++ pyStr v
  | (k, v) :: xs => "\x27" ++ k ++ "\x27: " ++ pyStr v ++ ", " ++ pyStrObj xs

end

/-- `SITE_URL` constant from the config section of `app.py`. -/
def SITE_URL : String := "https://www.example.com/"

/-- The body of the search-analytics query issued by `fetch_cwv`
(site URL, date range, dimensions, row limit). -/
structure SearchAnalyticsQuery where
  siteUrl : String
  startDate : String
  endDate : String
  dimensions : List String
  rowLimit : Nat

/-- The request `fetch_cwv` builds: fixed dates, grouped by page,
`rowLimit = 10`. -/
def cwvQuery : SearchAnalyticsQuery :=
  ⟨SITE_URL, "2025-08-01", "2025-09-01", ["page"], 10⟩

/-- A chat-completion request as built by `client.chat.completions.create`
calls in `app.py`: model identifier, (role, content) messages,
temperature (kept as the literal written in the source). -/
structure ChatRequest where
  model : String
  messages : List (String × String)
  temperature : String

/-- The error payload each fetch function substitutes on exception:
`{"error": str(e)}`. -/
def errObj (e : String) : Json := .obj [("error", .str e)]

/-- `fetch_index_coverage`: one URL-inspection call; the oracle argument is
the outcome of `request.execute()` (`.error e` models a raised exception
with message `e`). On exception returns `{"error": str(e)}`. -/
def fetch_index_coverage (execOutcome : Except String Json) : Json :=
  match execOutcome with
  | .ok data => data
  | .error e => errObj e

/-- `fetch_cwv`: one search-analytics query at `cwvQuery`; the backend
oracle maps the issued query to the outcome of `request.execute()`.
On exception returns `{"error": str(e)}`. -/
def fetch_cwv (backend : SearchAnalyticsQuery → Except String Json) : Json :=
  match backend cwvQuery with
  | .ok data => data
  | .error e => errObj e

/-- `fetch_mobile_usability`: one mobile-friendly-test call; on exception
returns `{"error": str(e)}`. -/
def fetch_mobile_usability (execOutcome : Except String Json) : Json :=
  match execOutcome with
  | .ok data => data
  | .error e => errObj e

/-- The f-string prompt built by `analyze_with_ai` (the raw payload is
interpolated with Python `str()`). -/
def analyze_prompt (category : String) (error_data : Json) : String :=
  "\n    You are an SEO expert. Analyze this " ++ category ++
  " report from Google Search Console.\n    Provide:\n    1. Root causes\n    2. Actionable SEO solutions (step by step)\n    3. Priority level (High / Medium / Low with reasoning)\n    4. Best practices for long-term fix\n\n    Report Data:\n    " ++
  pyStr error_data ++ "\n    "

/-- The completion request issued by `analyze_with_ai`: gpt-4o-mini,
system + user messages, temperature 0.4. -/
def analyze_request (category : String) (error_data : Json) : ChatRequest :=
  ⟨"gpt-4o-mini",
   [("system", "You are an SEO consultant."), ("user", analyze_prompt category error_data)],
   "0.4"⟩

/-- `analyze_with_ai`: issues one completion request; any exception from
the provider is NOT caught here and propagates (`Except.error`). -/
def analyze_with_ai (llm : ChatRequest → Except String String)
    (category : String) (error_data : Json) : Except String String :=
  llm (analyze_request category error_data)

/-- The `results` dictionary rendered into the summary prompt
(each category maps to its `{"raw", "ai_solution"}` sub-dictionary). -/
def resultsJson (results : List (String × PyDict)) : Json :=
  .obj (results.map fun p => (p.1, .obj p.2))

/-- The f-string prompt built by `generate_summary_with_ai`. -/
def summary_prompt (results : List (String × PyDict)) : String :=
  "\n    Create an SEO Executive Summary for this site audit. \n    Summarize in 3 parts:\n    1. Overall SEO Health (positive + negative highlights)\n    2. Key Priority Issues\n    3. Recommended Roadmap (short term vs long term)\n\n    Results:\n    " ++
  pyStr (resultsJson results) ++ "\n    "

/-- The completion request issued by `generate_summary_with_ai`:
gpt-4o-mini, temperature 0.5. -/
def summary_request (results : List (String × PyDict)) : ChatRequest :=
  ⟨"gpt-4o-mini",
   [("system", "You are an SEO consultant."), ("user", summary_prompt results)],
   "0.5"⟩

/-- `generate_summary_with_ai`: one completion call; exceptions
propagate. -/
def generate_summary_with_ai (llm : ChatRequest → Except String String)
    (results : List (String × PyDict)) : Except String String :=
  llm (summary_request results)

/-- An element of the reportlab `story` list: a paragraph (text + style
name) or a spacer. -/
inductive Element where
  | para (text : String) (style : String)
  | spacer (w : Nat) (h : Nat)

/-- Python dictionary lookup `d[k]`: the first matching key, or a
`KeyError` carrying the key. -/
def getKey (d : List (String × α)) (k : String) : Except String α :=
  match d.find? (fun p => p.1 == k) with
  | some p => .ok p.2
  | none => .error ("KeyError: " ++ k)

/-- The chained lookup `results[k][sub]` used throughout `generate_pdf`. -/
def getKey2 (results : List (String × PyDict)) (k sub : String) : Except String Json :=
  match getKey results k with
  | .ok d => getKey d sub
  | .error e => .error e

/-- The text `reportlab` receives for an `ai_solution` value: the script
always stores a string there and passes it to `Paragraph` directly. -/
def textOf : Json → String
  | .str s => s
  | v => pyStr v

/-- The fixed output filename of `generate_pdf`. -/
def pdfFilename : String := "SEO_Audit_Report.pdf"

/-- The story list `generate_pdf` assembles, given the six values looked
up from the results mapping; layout is the fixed source order: cover,
executive summary, index coverage, core web vitals, mobile usability. -/
def mkStory (site_url summary_text today : String)
    (covRaw covAi cwvRaw cwvAi mobRaw mobAi : Json) : List Element :=
  [ .para "<b>SEO Audit Report</b>" "Title",
    .spacer 1 12,
    .para ("Site: " ++ site_url) "Normal",
    .para ("Date: " ++ today) "Normal",
    .spacer 1 24,
    .para "<b>📑 Executive Summary</b>" "Heading2",
    .para summary_text "Normal",
    .spacer 1 24,
    .para "<b>📊 Index Coverage</b>" "Heading2",
    .para "Raw Data:" "Heading3",
    .para (pyStr covRaw) "Code",
    .spacer 1 6,
    .para "AI SEO Recommendations:" "Heading3",
    .para (textOf covAi) "Normal",
    .spacer 1 12,
    .para "<b>⚡ Core Web Vitals</b>" "Heading2",
    .para "Raw Data:" "Heading3",
    .para (pyStr cwvRaw) "Code",
    .spacer 1 6,
    .para "AI SEO Recommendations:" "Heading3",
    .para (textOf cwvAi) "Normal",
    .spacer 1 12,
    .para "<b>📱 Mobile Usability</b>" "Heading2",
    .para "Raw Data:" "Heading3",
    .para (pyStr mobRaw) "Code",
    .spacer 1 6,
    .para "AI SEO Recommendations:" "Heading3",
    .para (textOf mobAi) "Normal",
    .spacer 1 12 ]

/-- `generate_pdf`: performs the dictionary lookups in source order
(a missing key raises `KeyError` and no document is built), then builds
the story. `today` models `datetime.date.today().strftime(...)`. -/
def generate_pdf (site_url : String) (results : List (String × PyDict))
    (summary_text : String) (today : String) : Except String (List Element) :=
  match getKey2 results "index_coverage" "raw" with
  | .error e => .error e
  | .ok covRaw =>
    match getKey2 results "index_coverage" "ai_solution" with
    | .error e => .error e
    | .ok covAi =>
      match getKey2 results "core_web_vitals" "raw" with
      | .error e => .error e
      | .ok cwvRaw =>
        match getKey2 results "core_web_vitals" "ai_solution" with
        | .error e => .error e
        | .ok cwvAi =>
          match getKey2 results "mobile_usability" "raw" with
          | .error e => .error e
          | .ok mobRaw =>
            match getKey2 results "mobile_usability" "ai_solution" with
            | .error e => .error e
            | .ok mobAi =>
              .ok (mkStory site_url summary_text today covRaw covAi cwvRaw cwvAi
                    mobRaw mobAi)

/-- Local storage: filename to stored artifact bytes (story). -/
abbrev FileSystem := String → Option (List Element)

/-- Overwriting file write (`SimpleDocTemplate(filename, ...).build`). -/
def writeFile (fs : FileSystem) (name : String) (content : List Element) : FileSystem :=
  fun n => if n = name then some content else fs n

/-- Running `generate_pdf` against local storage: on success the fixed
filename is overwritten with the built story; on a `KeyError` nothing is
written. -/
def pdf_export_state (fs : FileSystem) (site_url : String)
    (results : List (String × PyDict)) (summary_text today : String) :
    Except String Unit × FileSystem :=
  match generate_pdf site_url results summary_text today with
  | .ok story => (.ok (), writeFile fs pdfFilename story)
  | .error e => (.error e, fs)

/-- The external-world oracles the script body consumes, in order:
outcome of `json.loads` on the uploaded credentials, outcome of
`get_gsc_service` (credential validation + client build), the three
`request.execute()` outcomes, the chat-completion endpoint, whether the
export button is clicked, and the generation date. -/
structure Env where
  creds : Except String Json
  auth : Json → Except String Unit
  inspectExec : Except String Json
  queryExec : SearchAnalyticsQuery → Except String Json
  mobileExec : Except String Json
  llm : ChatRequest → Except String String
  exportClicked : Bool
  today : String

/-- Observable calls the script body makes, in program order. -/
inductive Event where
  | authAttempt
  | fetchCall (category : String)
  | analyzeCall (category : String) (payload : Json)
  | assign (key : String) (entry : PyDict)
  | summarizeCall (results : List (String × PyDict))
  | exportCall (summary : String)

/-- The state the pipeline ends with on full success. -/
structure PipelineOut where
  results : List (String × PyDict)
  summary : String

/-- The Streamlit app body (lines 161-213 of `app.py`): parse credentials
(outside the `try`), authenticate, then for each category fetch + analyze
+ store, then summarize, then (if the button is clicked) export. A raised
exception anywhere aborts the remaining steps (`.error`); fetch
exceptions are absorbed inside the fetch functions. The second component
is the trace of external calls and assignments made. -/
def run_pipeline (env : Env) : Except String PipelineOut × List Event :=
  match env.creds with
  | .error e => (.error e, [])
  | .ok creds_dict =>
    match env.auth creds_dict with
    | .error e => (.error e, [.authAttempt])
    | .ok _ =>
      let index_data := fetch_index_coverage env.inspectExec
      let t1 : List Event :=
        [.authAttempt, .fetchCall "index_coverage", .analyzeCall "Index Coverage" index_data]
      match analyze_with_ai env.llm "Index Coverage" index_data with
      | .error e => (.error e, t1)
      | .ok index_ai =>
        let entry1 : PyDict := [("raw", index_data), ("ai_solution", .str index_ai)]
        let cwv_data := fetch_cwv env.queryExec
        let t2 := t1 ++ [.assign "index_coverage" entry1,
          .fetchCall "core_web_vitals", .analyzeCall "Core Web Vitals" cwv_data]
        match analyze_with_ai env.llm "Core Web Vitals" cwv_data with
        | .error e => (.error e, t2)
        | .ok cwv_ai =>
          let entry2 : PyDict := [("raw", cwv_data), ("ai_solution", .str cwv_ai)]
          let mobile_data := fetch_mobile_usability env.mobileExec
          let t3 := t2 ++ [.assign "core_web_vitals" entry2,
            .fetchCall "mobile_usability", .analyzeCall "Mobile Usability" mobile_data]
          match analyze_with_ai env.llm "Mobile Usability" mobile_data with
          | .error e => (.error e, t3)
          | .ok mobile_ai =>
            let entry3 : PyDict := [("raw", mobile_data), ("ai_solution", .str mobile_ai)]
            let results : List (String × PyDict) :=
              [("index_coverage", entry1), ("core_web_vitals", entry2),
               ("mobile_usability", entry3)]
            let t4 := t3 ++ [.assign "mobile_usability" entry3, .summarizeCall results]
            match generate_summary_with_ai env.llm results with
            | .error e => (.error e, t4)
            | .ok summary_text =>
              if env.exportClicked then
                let t5 := t4 ++ [.exportCall summary_text]
                match generate_pdf SITE_URL results summary_text env.today with
                | .error e => (.error e, t5)
                | .ok _story => (.ok ⟨results, summary_text⟩, t5)
              else
                (.ok ⟨results, summary_text⟩, t4)

/-- The `{"raw", "ai_solution"}` entry the script stores for a category,
given the fetched payload and the analyzer output. -/
def mkEntry (data : Json) (ai : String) : PyDict :=
  [("raw", data), ("ai_solution", .str ai)]

/-- The three payloads the fetch stage produces in `env`. -/
def fetchedData (env : Env) : Json × Json × Json :=
  (fetch_index_coverage env.inspectExec, fetch_cwv env.queryExec,
   fetch_mobile_usability env.mobileExec)

/-- The results mapping the pipeline builds when every LLM call succeeds
with outputs given by `f`. -/
def successResults (env : Env) (f : ChatRequest → String) : List (String × PyDict) :=
  [("index_coverage",
      mkEntry (fetchedData env).1 (f (analyze_request "Index Coverage" (fetchedData env).1))),
   ("core_web_vitals",
      mkEntry (fetchedData env).2.1 (f (analyze_request "Core Web Vitals" (fetchedData env).2.1))),
   ("mobile_usability",
      mkEntry (fetchedData env).2.2 (f (analyze_request "Mobile Usability" (fetchedData env).2.2)))]

/-- The executive summary the pipeline produces in that case. -/
def successSummary (env : Env) (f : ChatRequest → String) : String :=
  f (summary_request (successResults env f))

/-- The full event trace of a successful pipeline run. -/
def successTrace (env : Env) (f : ChatRequest → String) : List Event :=
  [.authAttempt,
   .fetchCall "index_coverage",
   .analyzeCall "Index Coverage" (fetchedData env).1,
   .assign "index_coverage"
     (mkEntry (fetchedData env).1 (f (analyze_request "Index Coverage" (fetchedData env).1))),
   .fetchCall "core_web_vitals",
   .analyzeCall "Core Web Vitals" (fetchedData env).2.1,
   .assign "core_web_vitals"
     (mkEntry (fetchedData env).2.1 (f (analyze_request "Core Web Vitals" (fetchedData env).2.1))),
   .fetchCall "mobile_usability",
   .analyzeCall "Mobile Usability" (fetchedData env).2.2,
   .assign "mobile_usability"
     (mkEntry (fetchedData env).2.2 (f (analyze_request "Mobile Usability" (fetchedData env).2.2))),
   .summarizeCall (successResults env f)]
  ++ (if env.exportClicked then [.exportCall (successSummary env f)] else [])

/-- Recognizer for fetch events in a trace. -/
def isFetchEvent : Event → Bool
  | .fetchCall _ => true
  | _ => false

/-- Recognizer for summarize events in a trace. -/
def isSummarizeEvent : Event → Bool
  | .summarizeCall _ => true
  | _ => false

/-- The sequence of `results[key] = entry` assignments in a trace. -/
def assigns : List Event → List (String × PyDict)
  | [] => []
  | .assign k e :: rest => (k, e) :: assigns rest
  | _ :: rest => assigns rest

/-- The section headings (`Heading2` paragraphs) of a story, in order. -/
def heading2s : List Element → List String
  | [] => []
  | .para t s :: rest => if s = "Heading2" then t :: heading2s rest else heading2s rest
  | _ :: rest => heading2s rest

/-- Whether an `Except` computation succeeded. -/
def exceptIsOk : Except String α → Bool
  | .ok _ => true
  | .error _ => false

/-- Model of the search-analytics endpoint's row cap: the service returns
at most `rowLimit` of its matching rows. -/
def executeQuery (q : SearchAnalyticsQuery) (serverRows : List Json) : List Json :=
  serverRows.take q.rowLimit

/-- Number of rows in a response payload. -/
def rowCount : Json → Nat
  | .arr items => items.length
  | _ => 0

/-- A flat two-column table artifact (delimited-text export). -/
structure TableArtifact where
  columns : List String
  rows : List (List String)

/-- Modelled from the spec: the tabular export of the single-report
variant is absent from `src/` (only the PDF exporter is there; `pandas`
is imported but unused). Per the spec it flattens a single report's raw
data and analysis into one row of a two-column table with columns
`error_data` and `ai_solution`, the values being the stringified raw
data and the analysis text, unmodified. -/
def tabular_export (raw : Json) (ai_solution : String) : TableArtifact :=
  ⟨["error_data", "ai_solution"], [[pyStr raw, ai_solution]]⟩

/-- A run where authentication succeeds, every fetch raises, and the LLM
answers every request with "A". -/
def envFetchFail : Env :=
  ⟨.ok .null, fun _ => .ok (), .error "e1", fun _ => .error "e2", .error "e3",
   fun _ => .ok "A", true, "01-01-2025"⟩

/-- A run whose credential payload fails to parse. -/
def envBadCreds : Env :=
  ⟨.error "bad creds", fun _ => .error "rejected", .ok .null, fun _ => .ok .null,
   .ok .null, fun _ => .ok "A", false, "01-01-2025"⟩

/-- A fully successful run: every oracle succeeds, the LLM answers "A",
the export button is clicked. -/
def envOk : Env :=
  ⟨.ok .null, fun _ => .ok (), .ok .null, fun _ => .ok .null, .ok .null,
   fun _ => .ok "A", true, "01-01-2025"⟩

/-- A run where the LLM endpoint is down. -/
def envLlmFail : Env :=
  ⟨.ok .null, fun _ => .ok (), .ok .null, fun _ => .ok .null, .ok .null,
   fun _ => .error "llm down", false, "01-01-2025"⟩

/-- A complete results mapping with placeholder payloads. -/
def goodResults : List (String × PyDict) :=
  [("index_coverage", mkEntry .null "a"), ("core_web_vitals", mkEntry .null "b"),
   ("mobile_usability", mkEntry .null "c")]

/-- The pipeline output of the `envOk` run. -/
def outOk : PipelineOut :=
  ⟨[("index_coverage", mkEntry .null "A"), ("core_web_vitals", mkEntry .null "A"),
    ("mobile_usability", mkEntry .null "A")], "A"⟩

theorem generate_pdf_of_wellformed (site sum today : String) (d1 d2 d3 : Json)
    (a1 a2 a3 : String) :
    generate_pdf site
      [("index_coverage", [("raw", d1), ("ai_solution", .str a1)]),
       ("core_web_vitals", [("raw", d2), ("ai_solution", .str a2)]),
       ("mobile_usability", [("raw", d3), ("ai_solution", .str a3)])] sum today =
      .ok (mkStory site sum today d1 (.str a1) d2 (.str a2) d3 (.str a3)) := rfl

theorem run_pipeline_success (env : Env) (j : Json) (f : ChatRequest → String)
    (hc : env.creds = .ok j) (ha : env.auth j = .ok ())
    (hf : ∀ r, env.llm r = .ok (f r)) :
    run_pipeline env =
      (.ok ⟨successResults env f, successSummary env f⟩, successTrace env f) := by
  cases hE : env.exportClicked <;>
    simp [run_pipeline, analyze_with_ai, generate_summary_with_ai, hc, ha, hf, hE,
      successResults, successSummary, successTrace, fetchedData, mkEntry,
      generate_pdf_of_wellformed]

theorem run_pipeline_creds_error (env : Env) (e : String)
    (h : env.creds = .error e) : run_pipeline env = (.error e, []) := by
  simp [run_pipeline, h]

theorem run_pipeline_auth_error (env : Env) (j : Json) (e : String)
    (hc : env.creds = .ok j) (ha : env.auth j = .error e) :
    run_pipeline env = (.error e, [.authAttempt]) := by
  simp [run_pipeline, hc, ha]

theorem run_pipeline_analysis1_error (env : Env) (j : Json) (e : String)
    (hc : env.creds = .ok j) (ha : env.auth j = .ok ())
    (hllm : env.llm (analyze_request "Index Coverage"
      (fetch_index_coverage env.inspectExec)) = .error e) :
    run_pipeline env =
      (.error e,
       [.authAttempt, .fetchCall "index_coverage",
        .analyzeCall "Index Coverage" (fetch_index_coverage env.inspectExec)]) := by
  simp [run_pipeline, hc, ha, analyze_with_ai, hllm]

/-- C1, as written: the raw field is the bare stringified error message.
The code in fact wraps the message: it returns `{"error": str(e)}`. -/
theorem fetch_error_not_bare_string :
    ¬ (fetch_index_coverage (Except.error "boom") = Json.str "boom") :=
  fun h => Json.noConfusion h

/-- C1 (amended): on a fetch exception each of the three fetch operations
returns the payload `{"error": str(e)}` instead of propagating, and the
pipeline still invokes the AI Analyzer for that category with that error
payload, storing it as the category's raw field. -/
theorem fetch_errors_degrade_and_still_analyzed (env : Env) (j : Json)
    (f : ChatRequest → String) (e1 e2 e3 : String)
    (hc : env.creds = Except.ok j) (ha : env.auth j = Except.ok ())
    (hf : ∀ r, env.llm r = Except.ok (f r))
    (h1 : env.inspectExec = Except.error e1)
    (h2 : env.queryExec cwvQuery = Except.error e2)
    (h3 : env.mobileExec = Except.error e3) :
    fetch_index_coverage env.inspectExec = errObj e1 ∧
    fetch_cwv env.queryExec = errObj e2 ∧
    fetch_mobile_usability env.mobileExec = errObj e3 ∧
    Event.analyzeCall "Index Coverage" (errObj e1) ∈ (run_pipeline env).2 ∧
    Event.analyzeCall "Core Web Vitals" (errObj e2) ∈ (run_pipeline env).2 ∧
    Event.analyzeCall "Mobile Usability" (errObj e3) ∈ (run_pipeline env).2 ∧
    ∃ out, (run_pipeline env).1 = Except.ok out ∧
      getKey2 out.results "index_coverage" "raw" = Except.ok (errObj e1) ∧
      getKey2 out.results "core_web_vitals" "raw" = Except.ok (errObj e2) ∧
      getKey2 out.results "mobile_usability" "raw" = Except.ok (errObj e3) := by
  have hrun := run_pipeline_success env j f hc ha hf
  have hd1 : fetch_index_coverage env.inspectExec = errObj e1 := by
    rw [h1]; rfl
  have hd2 : fetch_cwv env.queryExec = errObj e2 := by
    unfold fetch_cwv; rw [h2]
  have hd3 : fetch_mobile_usability env.mobileExec = errObj e3 := by
    rw [h3]; rfl
  have hg1 : getKey2 (successResults env f) "index_coverage" "raw" =
      Except.ok (fetchedData env).1 := rfl
  have hg2 : getKey2 (successResults env f) "core_web_vitals" "raw" =
      Except.ok (fetchedData env).2.1 := rfl
  have hg3 : getKey2 (successResults env f) "mobile_usability" "raw" =
      Except.ok (fetchedData env).2.2 := rfl
  refine ⟨hd1, hd2, hd3, ?_, ?_, ?_,
    ⟨⟨successResults env f, successSummary env f⟩, ?_, ?_, ?_, ?_⟩⟩
  · rw [hrun]
    simp [successTrace, fetchedData, hd1]
  · rw [hrun]
    simp [successTrace, fetchedData, hd2]
  · rw [hrun]
    simp [successTrace, fetchedData, hd3]
  · rw [hrun]
  · rw [hg1]
    simp [fetchedData, hd1]
  · rw [hg2]
    simp [fetchedData, hd2]
  · rw [hg3]
    simp [fetchedData, hd3]

/-- C2: if credential parsing fails or the identity provider rejects the
credentials, the pipeline halts with a single error carrying the
underlying message and zero fetch operations occur. -/
theorem auth_failure_halts_before_fetch (env : Env) (e : String)
    (h : env.creds = Except.error e ∨
         ∃ j, env.creds = Except.ok j ∧ env.auth j = Except.error e) :
    (run_pipeline env).1 = Except.error e ∧
    ((run_pipeline env).2.filter isFetchEvent) = [] ∧
    ∀ c, Event.fetchCall c ∉ (run_pipeline env).2 := by
  rcases h with h | ⟨j, hc, ha⟩
  · rw [run_pipeline_creds_error env e h]
    simp
  · rw [run_pipeline_auth_error env j e hc ha]
    simp [isFetchEvent]

/-- C6: an exception inside the AI Analyzer is not recovered locally: the
pipeline aborts with that error, no later category is fetched or
analyzed, and no summary or export is produced. -/
theorem analysis_failure_aborts_rest (env : Env) (j : Json) (e : String)
    (hc : env.creds = Except.ok j) (ha : env.auth j = Except.ok ())
    (hllm : env.llm (analyze_request "Index Coverage"
      (fetch_index_coverage env.inspectExec)) = Except.error e) :
    (run_pipeline env).1 = Except.error e ∧
    Event.fetchCall "core_web_vitals" ∉ (run_pipeline env).2 ∧
    Event.fetchCall "mobile_usability" ∉ (run_pipeline env).2 ∧
    (∀ p, Event.analyzeCall "Core Web Vitals" p ∉ (run_pipeline env).2) ∧
    (∀ p, Event.analyzeCall "Mobile Usability" p ∉ (run_pipeline env).2) ∧
    (∀ r, Event.summarizeCall r ∉ (run_pipeline env).2) ∧
    ∀ s, Event.exportCall s ∉ (run_pipeline env).2 := by
  rw [run_pipeline_analysis1_error env j e hc ha hllm]
  simp

theorem run_pipeline_analysis2_error (env : Env) (j : Json) (a1 e : String)
    (hc : env.creds = .ok j) (ha : env.auth j = .ok ())
    (h1 : env.llm (analyze_request "Index Coverage"
      (fetch_index_coverage env.inspectExec)) = .ok a1)
    (h2 : env.llm (analyze_request "Core Web Vitals"
      (fetch_cwv env.queryExec)) = .error e) :
    run_pipeline env =
      (.error e,
       [.authAttempt, .fetchCall "index_coverage",
        .analyzeCall "Index Coverage" (fetch_index_coverage env.inspectExec),
        .assign "index_coverage" (mkEntry (fetch_index_coverage env.inspectExec) a1),
        .fetchCall "core_web_vitals",
        .analyzeCall "Core Web Vitals" (fetch_cwv env.queryExec)]) := by
  simp [run_pipeline, hc, ha, analyze_with_ai, h1, h2, mkEntry]

theorem run_pipeline_analysis3_error (env : Env) (j : Json) (a1 a2 e : String)
    (hc : env.creds = .ok j) (ha : env.auth j = .ok ())
    (h1 : env.llm (analyze_request "Index Coverage"
      (fetch_index_coverage env.inspectExec)) = .ok a1)
    (h2 : env.llm (analyze_request "Core Web Vitals"
      (fetch_cwv env.queryExec)) = .ok a2)
    (h3 : env.llm (analyze_request "Mobile Usability"
      (fetch_mobile_usability env.mobileExec)) = .error e) :
    run_pipeline env =
      (.error e,
       [.authAttempt, .fetchCall "index_coverage",
        .analyzeCall "Index Coverage" (fetch_index_coverage env.inspectExec),
        .assign "index_coverage" (mkEntry (fetch_index_coverage env.inspectExec) a1),
        .fetchCall "core_web_vitals",
        .analyzeCall "Core Web Vitals" (fetch_cwv env.queryExec),
        .assign "core_web_vitals" (mkEntry (fetch_cwv env.queryExec) a2),
        .fetchCall "mobile_usability",
        .analyzeCall "Mobile Usability" (fetch_mobile_usability env.mobileExec)]) := by
  simp [run_pipeline, hc, ha, analyze_with_ai, h1, h2, h3, mkEntry]

theorem run_pipeline_summary_error (env : Env) (j : Json) (a1 a2 a3 e : String)
    (hc : env.creds = .ok j) (ha : env.auth j = .ok ())
    (h1 : env.llm (analyze_request "Index Coverage"
      (fetch_index_coverage env.inspectExec)) = .ok a1)
    (h2 : env.llm (analyze_request "Core Web Vitals"
      (fetch_cwv env.queryExec)) = .ok a2)
    (h3 : env.llm (analyze_request "Mobile Usability"
      (fetch_mobile_usability env.mobileExec)) = .ok a3)
    (hs : env.llm (summary_request
      [("index_coverage", mkEntry (fetch_index_coverage env.inspectExec) a1),
       ("core_web_vitals", mkEntry (fetch_cwv env.queryExec) a2),
       ("mobile_usability", mkEntry (fetch_mobile_usability env.mobileExec) a3)]) =
      .error e) :
    run_pipeline env =
      (.error e,
       [.authAttempt, .fetchCall "index_coverage",
        .analyzeCall "Index Coverage" (fetch_index_coverage env.inspectExec),
        .assign "index_coverage" (mkEntry (fetch_index_coverage env.inspectExec) a1),
        .fetchCall "core_web_vitals",
        .analyzeCall "Core Web Vitals" (fetch_cwv env.queryExec),
        .assign "core_web_vitals" (mkEntry (fetch_cwv env.queryExec) a2),
        .fetchCall "mobile_usability",
        .analyzeCall "Mobile Usability" (fetch_mobile_usability env.mobileExec),
        .assign "mobile_usability" (mkEntry (fetch_mobile_usability env.mobileExec) a3),
        .summarizeCall
          [("index_coverage", mkEntry (fetch_index_coverage env.inspectExec) a1),
           ("core_web_vitals", mkEntry (fetch_cwv env.queryExec) a2),
           ("mobile_usability", mkEntry (fetch_mobile_usability env.mobileExec) a3)]]) := by
  simp only [mkEntry] at hs
  simp [run_pipeline, hc, ha, analyze_with_ai, generate_summary_with_ai, h1, h2, h3, hs,
    mkEntry]

theorem run_pipeline_all_ok (env : Env) (j : Json) (a1 a2 a3 s : String)
    (hc : env.creds = .ok j) (ha : env.auth j = .ok ())
    (h1 : env.llm (analyze_request "Index Coverage"
      (fetch_index_coverage env.inspectExec)) = .ok a1)
    (h2 : env.llm (analyze_request "Core Web Vitals"
      (fetch_cwv env.queryExec)) = .ok a2)
    (h3 : env.llm (analyze_request "Mobile Usability"
      (fetch_mobile_usability env.mobileExec)) = .ok a3)
    (hs : env.llm (summary_request
      [("index_coverage", mkEntry (fetch_index_coverage env.inspectExec) a1),
       ("core_web_vitals", mkEntry (fetch_cwv env.queryExec) a2),
       ("mobile_usability", mkEntry (fetch_mobile_usability env.mobileExec) a3)]) =
      .ok s) :
    run_pipeline env =
      (.ok ⟨[("index_coverage", mkEntry (fetch_index_coverage env.inspectExec) a1),
             ("core_web_vitals", mkEntry (fetch_cwv env.queryExec) a2),
             ("mobile_usability", mkEntry (fetch_mobile_usability env.mobileExec) a3)], s⟩,
       [.authAttempt, .fetchCall "index_coverage",
        .analyzeCall "Index Coverage" (fetch_index_coverage env.inspectExec),
        .assign "index_coverage" (mkEntry (fetch_index_coverage env.inspectExec) a1),
        .fetchCall "core_web_vitals",
        .analyzeCall "Core Web Vitals" (fetch_cwv env.queryExec),
        .assign "core_web_vitals" (mkEntry (fetch_cwv env.queryExec) a2),
        .fetchCall "mobile_usability",
        .analyzeCall "Mobile Usability" (fetch_mobile_usability env.mobileExec),
        .assign "mobile_usability" (mkEntry (fetch_mobile_usability env.mobileExec) a3),
        .summarizeCall
          [("index_coverage", mkEntry (fetch_index_coverage env.inspectExec) a1),
           ("core_web_vitals", mkEntry (fetch_cwv env.queryExec) a2),
           ("mobile_usability", mkEntry (fetch_mobile_usability env.mobileExec) a3)]] ++
        (if env.exportClicked then [.exportCall s] else [])) := by
  simp only [mkEntry] at hs
  cases hE : env.exportClicked <;>
    simp [run_pipeline, hc, ha, analyze_with_ai, generate_summary_with_ai, h1, h2, h3, hs,
      hE, mkEntry, generate_pdf_of_wellformed]

/-- C3: once the pipeline succeeds, `summarize` was called exactly once,
its argument already carried an analysis (`ai_solution`) for every
category present, and its output is the pipeline's summary, passed
unmodified to the export step when the export button is clicked. -/
theorem summarize_once_after_all_analyses (env : Env) (j : Json)
    (f : ChatRequest → String)
    (hc : env.creds = Except.ok j) (ha : env.auth j = Except.ok ())
    (hf : ∀ r, env.llm r = Except.ok (f r)) (he : env.exportClicked = true) :
    ((run_pipeline env).2.filter isSummarizeEvent) =
      [Event.summarizeCall (successResults env f)] ∧
    (∀ r, Event.summarizeCall r ∈ (run_pipeline env).2 →
      ∀ p ∈ r, exceptIsOk (getKey p.2 "ai_solution") = true) ∧
    env.llm (summary_request (successResults env f)) =
      Except.ok (successSummary env f) ∧
    (run_pipeline env).1 =
      Except.ok ⟨successResults env f, successSummary env f⟩ ∧
    Event.exportCall (successSummary env f) ∈ (run_pipeline env).2 := by
  have hrun := run_pipeline_success env j f hc ha hf
  rw [hrun]
  refine ⟨?_, ?_, hf _, rfl, ?_⟩
  · simp [successTrace, he, isSummarizeEvent]
  · intro r hr p hp
    simp [successTrace, he] at hr
    subst hr
    simp [successResults, mkEntry] at hp
    rcases hp with hp | hp | hp <;> rcases hp <;> rfl
  · simp [successTrace, he]

/-- C10: whenever the pipeline completes successfully, the results
mapping holds exactly the keys index_coverage, core_web_vitals,
mobile_usability in that insertion order, each entry holds exactly the
keys raw and ai_solution, and the entries equal what was first assigned
(nothing is modified after assignment). -/
theorem results_mapping_shape (env : Env) (out : PipelineOut)
    (hout : (run_pipeline env).1 = Except.ok out) :
    out.results.map Prod.fst =
      ["index_coverage", "core_web_vitals", "mobile_usability"] ∧
    (∀ p ∈ out.results, p.2.map Prod.fst = ["raw", "ai_solution"]) ∧
    assigns (run_pipeline env).2 = out.results := by
  cases hc : env.creds with
  | error e =>
    rw [run_pipeline_creds_error env e hc] at hout
    exact absurd hout (by simp)
  | ok j =>
    cases ha : env.auth j with
    | error e =>
      rw [run_pipeline_auth_error env j e hc ha] at hout
      exact absurd hout (by simp)
    | ok u =>
      cases u
      cases h1 : env.llm (analyze_request "Index Coverage"
          (fetch_index_coverage env.inspectExec)) with
      | error e =>
        rw [run_pipeline_analysis1_error env j e hc ha h1] at hout
        exact absurd hout (by simp)
      | ok a1 =>
        cases h2 : env.llm (analyze_request "Core Web Vitals"
            (fetch_cwv env.queryExec)) with
        | error e =>
          rw [run_pipeline_analysis2_error env j a1 e hc ha h1 h2] at hout
          exact absurd hout (by simp)
        | ok a2 =>
          cases h3 : env.llm (analyze_request "Mobile Usability"
              (fetch_mobile_usability env.mobileExec)) with
          | error e =>
            rw [run_pipeline_analysis3_error env j a1 a2 e hc ha h1 h2 h3] at hout
            exact absurd hout (by simp)
          | ok a3 =>
            cases hs : env.llm (summary_request
                [("index_coverage", mkEntry (fetch_index_coverage env.inspectExec) a1),
                 ("core_web_vitals", mkEntry (fetch_cwv env.queryExec) a2),
                 ("mobile_usability",
                    mkEntry (fetch_mobile_usability env.mobileExec) a3)]) with
            | error e =>
              rw [run_pipeline_summary_error env j a1 a2 a3 e hc ha h1 h2 h3 hs] at hout
              exact absurd hout (by simp)
            | ok s =>
              have hrun := run_pipeline_all_ok env j a1 a2 a3 s hc ha h1 h2 h3 hs
              rw [hrun] at hout
              simp only [Except.ok.injEq] at hout
              subst hout
              rw [hrun]
              refine ⟨by simp [mkEntry], ?_, ?_⟩
              · intro p hp
                simp [mkEntry] at hp
                rcases hp with hp | hp | hp <;> rcases hp <;> rfl
              · cases hE : env.exportClicked <;>
                  simp [hE, assigns, mkEntry]

/-- C4: whatever the ordering of the results mapping, a successfully
built story starts with the title/date cover, and its section headings
are, in order: executive summary, index coverage, core web vitals,
mobile usability. -/
theorem pdf_sections_fixed_order (site : String) (results : List (String × PyDict))
    (sum today : String) (story : List Element)
    (h : generate_pdf site results sum today = Except.ok story) :
    story.take 5 =
      [Element.para "<b>SEO Audit Report</b>" "Title", Element.spacer 1 12,
       Element.para ("Site: " ++ site) "Normal",
       Element.para ("Date: " ++ today) "Normal", Element.spacer 1 24] ∧
    heading2s story =
      ["<b>📑 Executive Summary</b>", "<b>📊 Index Coverage</b>",
       "<b>⚡ Core Web Vitals</b>", "<b>📱 Mobile Usability</b>"] := by
  unfold generate_pdf at h
  repeat' split at h
  all_goals simp at h
  subst h
  exact ⟨rfl, rfl⟩

/-- C9: the PDF export is defined exactly on results mappings providing
all three category keys with both `raw` and `ai_solution` subkeys; on any
other mapping it raises a `KeyError` and nothing is written to storage. -/
theorem pdf_requires_complete_results (site : String)
    (results : List (String × PyDict)) (sum today : String) :
    (exceptIsOk (generate_pdf site results sum today) = true ↔
      (exceptIsOk (getKey2 results "index_coverage" "raw") = true ∧
       exceptIsOk (getKey2 results "index_coverage" "ai_solution") = true ∧
       exceptIsOk (getKey2 results "core_web_vitals" "raw") = true ∧
       exceptIsOk (getKey2 results "core_web_vitals" "ai_solution") = true ∧
       exceptIsOk (getKey2 results "mobile_usability" "raw") = true ∧
       exceptIsOk (getKey2 results "mobile_usability" "ai_solution") = true)) ∧
    ∀ fs : FileSystem, exceptIsOk (generate_pdf site results sum today) = false →
      (pdf_export_state fs site results sum today).2 = fs := by
  constructor
  · cases g1 : getKey2 results "index_coverage" "raw" <;>
    cases g2 : getKey2 results "index_coverage" "ai_solution" <;>
    cases g3 : getKey2 results "core_web_vitals" "raw" <;>
    cases g4 : getKey2 results "core_web_vitals" "ai_solution" <;>
    cases g5 : getKey2 results "mobile_usability" "raw" <;>
    cases g6 : getKey2 results "mobile_usability" "ai_solution" <;>
      simp [generate_pdf, g1, g2, g3, g4, g5, g6, exceptIsOk]
  · intro fs hbad
    unfold pdf_export_state
    cases hp : generate_pdf site results sum today with
    | ok story => rw [hp] at hbad; simp [exceptIsOk] at hbad
    | error e => rfl

theorem writeFile_overwrite (fs : FileSystem) (name : String)
    (content : List Element) :
    writeFile (writeFile fs name content) name content = writeFile fs name content := by
  funext x
  unfold writeFile
  by_cases h : x = name <;> simp [h]

/-- C7: with the generation date fixed, exporting the document twice from
the same results mapping and summary leaves storage exactly as one export
does: the artifact produced by the second call is byte-identical to the
first. -/
theorem pdf_export_idempotent (fs : FileSystem) (site : String)
    (results : List (String × PyDict)) (sum today : String) :
    (pdf_export_state (pdf_export_state fs site results sum today).2
        site results sum today).2 =
      (pdf_export_state fs site results sum today).2 := by
  unfold pdf_export_state
  cases hp : generate_pdf site results sum today with
  | error e => rfl
  | ok story => simp [writeFile_overwrite]

/-- C8: the performance fetch issues its query grouped by page, over the
fixed internal date range, with the row limit fixed at 10, so a response
honouring the cap never has more than 10 rows. -/
theorem cwv_query_fixed_and_capped :
    cwvQuery.rowLimit = 10 ∧ cwvQuery.dimensions = ["page"] ∧
    cwvQuery.siteUrl = SITE_URL ∧ cwvQuery.startDate = "2025-08-01" ∧
    cwvQuery.endDate = "2025-09-01" ∧
    ∀ serverRows : List Json,
      rowCount (fetch_cwv
        (fun q => Except.ok (Json.arr (executeQuery q serverRows)))) ≤ 10 := by
  refine ⟨rfl, rfl, rfl, rfl, rfl, ?_⟩
  intro serverRows
  have hcap : cwvQuery.rowLimit = 10 := rfl
  simp only [fetch_cwv, executeQuery, rowCount, hcap, List.length_take]
  omega

/-- C5: the tabular export yields exactly one row and exactly the two
columns `error_data` and `ai_solution`, holding the stringified raw data
and the analysis text unmodified. -/
theorem tabular_export_shape (raw : Json) (ai_solution : String) :
    (tabular_export raw ai_solution).columns = ["error_data", "ai_solution"] ∧
    (tabular_export raw ai_solution).rows = [[pyStr raw, ai_solution]] ∧
    (tabular_export raw ai_solution).rows.length = 1 ∧
    ∀ row ∈ (tabular_export raw ai_solution).rows, row.length = 2 := by
  refine ⟨rfl, rfl, rfl, ?_⟩
  intro row hr
  simp [tabular_export] at hr
  rw [hr]
  rfl

theorem fetch_errors_degrade_witness :
    Event.analyzeCall "Index Coverage" (errObj "e1") ∈ (run_pipeline envFetchFail).2 ∧
    Event.analyzeCall "Core Web Vitals" (errObj "e2") ∈ (run_pipeline envFetchFail).2 := by
  have h := fetch_errors_degrade_and_still_analyzed envFetchFail Json.null
    (fun _ => "A") "e1" "e2" "e3" rfl rfl (fun _ => rfl) rfl rfl rfl
  exact ⟨h.2.2.2.1, h.2.2.2.2.1⟩

theorem auth_failure_witness :
    (run_pipeline envBadCreds).1 = Except.error "bad creds" ∧
    ∀ c, Event.fetchCall c ∉ (run_pipeline envBadCreds).2 := by
  have h := auth_failure_halts_before_fetch envBadCreds "bad creds" (Or.inl rfl)
  exact ⟨h.1, h.2.2⟩

theorem summarize_once_witness :
    ((run_pipeline envOk).2.filter isSummarizeEvent) =
      [Event.summarizeCall (successResults envOk (fun _ => "A"))] ∧
    Event.exportCall (successSummary envOk (fun _ => "A")) ∈ (run_pipeline envOk).2 := by
  have h := summarize_once_after_all_analyses envOk Json.null (fun _ => "A")
    rfl rfl (fun _ => rfl) rfl
  exact ⟨h.1, h.2.2.2.2⟩

theorem pdf_sections_witness :
    heading2s (mkStory SITE_URL "s" "01-01-2025" Json.null (Json.str "a")
        Json.null (Json.str "b") Json.null (Json.str "c")) =
      ["<b>📑 Executive Summary</b>", "<b>📊 Index Coverage</b>",
       "<b>⚡ Core Web Vitals</b>", "<b>📱 Mobile Usability</b>"] :=
  (pdf_sections_fixed_order SITE_URL goodResults "s" "01-01-2025"
    (mkStory SITE_URL "s" "01-01-2025" Json.null (Json.str "a") Json.null
      (Json.str "b") Json.null (Json.str "c")) rfl).2

theorem analysis_failure_witness :
    (run_pipeline envLlmFail).1 = Except.error "llm down" ∧
    ∀ r, Event.summarizeCall r ∉ (run_pipeline envLlmFail).2 := by
  have h := analysis_failure_aborts_rest envLlmFail Json.null "llm down" rfl rfl rfl
  exact ⟨h.1, h.2.2.2.2.2.1⟩

theorem pdf_complete_results_witness :
    exceptIsOk (generate_pdf SITE_URL goodResults "s" "01-01-2025") = true ∧
    (pdf_export_state (fun _ => none) SITE_URL [] "s" "01-01-2025").2 =
      fun _ => none := by
  have h1 := (pdf_requires_complete_results SITE_URL goodResults "s" "01-01-2025").1.mpr
    ⟨rfl, rfl, rfl, rfl, rfl, rfl⟩
  have h2 := (pdf_requires_complete_results SITE_URL [] "s" "01-01-2025").2
    (fun _ => none) rfl
  exact ⟨h1, h2⟩

theorem results_mapping_witness :
    outOk.results.map Prod.fst =
      ["index_coverage", "core_web_vitals", "mobile_usability"] ∧
    assigns (run_pipeline envOk).2 = outOk.results := by
  have h := results_mapping_shape envOk outOk rfl
  exact ⟨h.1, h.2.2⟩

end SearchConsole
